import Mathlib

/-!
Shallow embedding of `src/src/main.rs` (hal2lcdtest): the `Timer` adapter
(`Timer::new`, `CountDown::start`, `CountDown::wait`, `Cancel::cancel`) and
the infinite display loop in `main`.

Machine integers are modelled as `Nat` with explicit `% 2^w` at the points
where the source performs a narrowing cast (`as u32` in `Timer::wait`).
The blocking delay handle (`cortex_m::delay::Delay`) is modelled as a mock
collaborator recording the sequence of `delay_us` requests it receives.
-/

/-- `core::time::Duration`: whole seconds (a u64 in Rust) plus a sub-second
nanosecond part (a u32, kept below 10^9 by every Rust constructor). -/
structure Duration where
  secs : Nat
  nanos : Nat
deriving DecidableEq, Repr

/-- `Duration::from_secs(s)`: `s` seconds, zero nanoseconds. -/
def Duration.from_secs (s : Nat) : Duration :=
  ⟨s, 0⟩

/-- `Duration::from_millis(ms)`: `ms / 1000` seconds and
`(ms % 1000) * 1_000_000` nanoseconds. -/
def Duration.from_millis (ms : Nat) : Duration :=
  ⟨ms / 1000, (ms % 1000) * 1000000⟩

/-- `Duration::from_micros(us)`: `us / 1_000_000` seconds and
`(us % 1_000_000) * 1000` nanoseconds. -/
def Duration.from_micros (us : Nat) : Duration :=
  ⟨us / 1000000, (us % 1000000) * 1000⟩

/-- `Duration::as_micros()`: the whole-microsecond count, truncating the
nanosecond remainder toward zero (`secs * 1_000_000 + nanos / 1000`). -/
def Duration.as_micros (d : Duration) : Nat :=
  d.secs * 1000000 + d.nanos / 1000

/-- `Duration::MAX`: `u64::MAX` seconds and `999_999_999` nanoseconds. -/
def Duration.MAX : Duration :=
  ⟨2 ^ 64 - 1, 999999999⟩

/-- `void::Void`, the uninhabited error type of `CountDown::wait` for this
`Timer` (`nb::Result<(), Void>`). -/
inductive Void : Type
deriving DecidableEq

/-- `nb::Error<E>`: either a genuine error `other e` or `wouldBlock`
(the operation is not ready yet). -/
inductive NbError (E : Type) where
  | other (e : E)
  | wouldBlock
deriving DecidableEq

/-- Mock of the owned `cortex_m::delay::Delay` handle: it records, in order,
every microsecond count passed to `delay_us`. -/
structure Delay where
  log : List Nat
deriving DecidableEq, Repr

/-- `Delay::delay_us(us)`: the handle receives one blocking delay request. -/
def Delay.delay_us (d : Delay) (us : Nat) : Delay :=
  ⟨d.log ++ [us]⟩

/-- The `Timer` struct of `main.rs`: a stored `duration`, the (dead)
`periodic` flag, and the exclusively owned delay handle. -/
structure Timer where
  duration : Duration
  periodic : Bool
  delay : Delay
deriving DecidableEq

/-- `Timer::new(delay)`: duration `Duration::from_secs(0)`, `periodic = false`,
taking ownership of the delay handle. -/
def Timer.new (delay : Delay) : Timer :=
  { duration := Duration.from_secs 0, periodic := false, delay := delay }

/-- `CountDown::start(count)` for `Timer`: `self.duration = count.into()`.
The generic `T: Into<Duration>` argument is modelled post-conversion. -/
def Timer.start (t : Timer) (count : Duration) : Timer :=
  { t with duration := count }

/-- `CountDown::wait()` for `Timer`:
`self.delay.delay_us(self.duration.as_micros() as u32); Ok(())`.
The `as u32` cast is the reduction `% 2^32`. -/
def Timer.wait (t : Timer) : Timer × Except (NbError Void) Unit :=
  ({ t with delay := t.delay.delay_us (t.duration.as_micros % 2 ^ 32) },
   Except.ok ())

/-- `Cancel::cancel()` for `Timer`: the body is just `Ok(())`; the state is
untouched. The error type is `&'static str`. -/
def Timer.cancel (t : Timer) : Timer × Except String Unit :=
  (t, Except.ok ())

/-- `n` successive calls to `wait`, keeping only the state thread. -/
def Timer.waitN (t : Timer) : Nat → Timer
  | 0 => t
  | n + 1 => ((Timer.waitN t n).wait).1

/-- The display operations `main`'s loop invokes on the `LCD1602` driver. -/
inductive LcdOp where
  | print (s : String)
  | delay (us : Nat)
  | clear
deriving DecidableEq

/-- One call on the display driver inside the loop: the operation is issued
(appended to the trace), the driver's result is turned into an `Option` by
`.ok()` and then dropped by the `;`. The driver's behaviour is an arbitrary
function `res` of the trace so far. -/
def lcd_call {E : Type} (res : List LcdOp → Except E Unit)
    (tr : List LcdOp) (op : LcdOp) : List LcdOp × Option Unit :=
  (tr ++ [op], (res (tr ++ [op])).toOption)

/-- One iteration of the `loop` in `main`:
`lcd.print("hello world!").ok(); lcd.delay(1_000_000u64).ok();
lcd.clear().ok(); lcd.delay(1_000_000u64).ok();`. -/
def main_loop_body {E : Type} (res : List LcdOp → Except E Unit)
    (tr : List LcdOp) : List LcdOp :=
  let r1 := lcd_call res tr (LcdOp.print "hello world!")
  let r2 := lcd_call res r1.1 (LcdOp.delay 1000000)
  let r3 := lcd_call res r2.1 LcdOp.clear
  let r4 := lcd_call res r3.1 (LcdOp.delay 1000000)
  r4.1

/-- The display-operation trace after `n` iterations of the loop in `main`,
for an arbitrary driver result oracle `res`. -/
def main_trace {E : Type} (res : List LcdOp → Except E Unit) : Nat → List LcdOp
  | 0 => []
  | n + 1 => main_loop_body res (main_trace res n)

/-- The fixed sequence one loop iteration appends to the trace. -/
def main_loop_iteration : List LcdOp :=
  [LcdOp.print "hello world!", LcdOp.delay 1000000,
   LcdOp.clear, LcdOp.delay 1000000]

-- Helper lemmas (shared; not claim theorems).

theorem Timer.wait_fst (t : Timer) :
    (t.wait).1 =
      { t with delay := t.delay.delay_us (t.duration.as_micros % 2 ^ 32) } :=
  rfl

theorem Timer.waitN_duration (t : Timer) (n : Nat) :
    (t.waitN n).duration = t.duration := by
  induction n with
  | zero => rfl
  | succ n ih => simp [Timer.waitN, Timer.wait, ih]

theorem Timer.waitN_log (t : Timer) (n : Nat) :
    (t.waitN n).delay.log =
      t.delay.log ++ List.replicate n (t.duration.as_micros % 2 ^ 32) := by
  induction n with
  | zero => simp [Timer.waitN]
  | succ n ih =>
      simp [Timer.waitN, Timer.wait, Delay.delay_us, ih,
        Timer.waitN_duration, List.replicate_succ']

theorem main_trace_join {E : Type} (res : List LcdOp → Except E Unit)
    (n : Nat) :
    main_trace res n = List.flatten (List.replicate n main_loop_iteration) := by
  induction n with
  | zero => rfl
  | succ n ih =>
      simp [main_trace, main_loop_body, lcd_call, ih, List.replicate_succ',
        main_loop_iteration, List.append_assoc]

-- Claim theorems.

/-- C1 (counterexample): as stated, the claim fails: for the duration of
exactly 2^32 microseconds, `wait` after `start` requests 0 microseconds,
not the whole-microsecond count 4294967296. -/
theorem wait_not_always_full_micros :
    (Duration.from_micros 4294967296).as_micros = 4294967296 ∧
      ((((Timer.new ⟨[]⟩).start
            (Duration.from_micros 4294967296)).wait).1.delay.log = [0] ∧
        ¬ (((Timer.new ⟨[]⟩).start
            (Duration.from_micros 4294967296)).wait).1.delay.log
          = [4294967296]) := by
  refine ⟨by decide, by decide, by decide⟩

/-- C1 (amended): after `start(d)`, `wait()` invokes the underlying delay
mechanism exactly once, with `d`'s whole-microsecond count (truncated toward
zero) reduced modulo 2^32; in particular `start(Duration::from_millis(1500))`
then `wait()` requests exactly 1,500,000 microseconds, and
`start(Duration::from_secs(1))` then `wait()` requests exactly 1,000,000
microseconds. -/
theorem wait_delegates_truncated_duration (t : Timer) (d : Duration) :
    (((t.start d).wait).1.delay.log =
        t.delay.log ++ [d.as_micros % 2 ^ 32] ∧
      ((t.start d).wait).2 = Except.ok ()) ∧
    (∀ dl : Delay,
      (((Timer.new dl).start (Duration.from_millis 1500)).wait).1.delay.log =
        dl.log ++ [1500000]) ∧
    (∀ dl : Delay,
      (((Timer.new dl).start (Duration.from_secs 1)).wait).1.delay.log =
        dl.log ++ [1000000]) := by
  refine ⟨⟨rfl, rfl⟩, fun dl => ?_, fun dl => ?_⟩
  · rw [show (((Timer.new dl).start
        (Duration.from_millis 1500)).wait).1.delay.log =
          dl.log ++ [(Duration.from_millis 1500).as_micros % 2 ^ 32] from rfl,
      show (Duration.from_millis 1500).as_micros % 2 ^ 32 = 1500000 from by
        decide]
  · rw [show (((Timer.new dl).start
        (Duration.from_secs 1)).wait).1.delay.log =
          dl.log ++ [(Duration.from_secs 1).as_micros % 2 ^ 32] from rfl,
      show (Duration.from_secs 1).as_micros % 2 ^ 32 = 1000000 from by
        decide]

/-- C2: when the stored duration's whole-microsecond count is at least 2^32,
`wait` requests that count reduced modulo 2^32 and still returns success;
in particular a duration of exactly 2^32 microseconds produces a delay
request of 0 microseconds. -/
theorem wait_wraps_past_u32 (t : Timer) (h : 2 ^ 32 ≤ t.duration.as_micros) :
    ((t.wait).1.delay.log = t.delay.log ++ [t.duration.as_micros % 2 ^ 32] ∧
      t.duration.as_micros % 2 ^ 32 < t.duration.as_micros ∧
      (t.wait).2 = Except.ok ()) ∧
    (((Timer.new ⟨[]⟩).start (Duration.from_micros (2 ^ 32))).wait).1.delay.log
      = [0] := by
  refine ⟨⟨rfl, ?_, rfl⟩, by decide⟩
  exact lt_of_lt_of_le (Nat.mod_lt _ (by norm_num)) h

/-- C2 witness. -/
theorem wait_wraps_past_u32_witness :
    2 ^ 32 ≤
      ((Timer.new ⟨[]⟩).start (Duration.from_micros (2 ^ 32))).duration.as_micros
    ∧
    (((((Timer.new ⟨[]⟩).start (Duration.from_micros (2 ^ 32))).wait).1.delay.log
        = [] ++ [((Timer.new ⟨[]⟩).start
            (Duration.from_micros (2 ^ 32))).duration.as_micros % 2 ^ 32] ∧
      ((Timer.new ⟨[]⟩).start
          (Duration.from_micros (2 ^ 32))).duration.as_micros % 2 ^ 32 <
        ((Timer.new ⟨[]⟩).start
          (Duration.from_micros (2 ^ 32))).duration.as_micros ∧
      ((((Timer.new ⟨[]⟩).start (Duration.from_micros (2 ^ 32))).wait)).2 =
        Except.ok ()) ∧
    (((Timer.new ⟨[]⟩).start (Duration.from_micros (2 ^ 32))).wait).1.delay.log
      = [0]) :=
  ⟨by decide,
   wait_wraps_past_u32 ((Timer.new ⟨[]⟩).start (Duration.from_micros (2 ^ 32)))
     (by decide)⟩

/-- C3: for every timer state (any stored duration, including zero and
`Duration::MAX`), `wait()` returns success; the genuine-error type `Void`
of its `nb::Result<(), Void>` is uninhabited, so `wait` cannot fail by
construction. -/
theorem wait_never_fails (t : Timer) :
    (t.wait).2 = Except.ok () ∧
    (({ t with duration := Duration.from_secs 0 } : Timer).wait).2 =
      Except.ok () ∧
    (({ t with duration := Duration.MAX } : Timer).wait).2 = Except.ok () ∧
    (∀ _v : Void, False) :=
  ⟨rfl, rfl, rfl, fun v => v.rec⟩

/-- C4: `cancel()` returns success from every timer state, leaves the whole
state (in particular the stored duration) unchanged, and a subsequent
`wait()` still requests the previously configured duration. -/
theorem cancel_noop (t : Timer) :
    t.cancel = (t, Except.ok ()) ∧
    ((t.cancel).1.wait).1.delay.log =
      t.delay.log ++ [t.duration.as_micros % 2 ^ 32] ∧
    ((t.cancel).1.wait).2 = Except.ok () :=
  ⟨rfl, rfl, rfl⟩

/-- C5: `start(d)` stores `d` as the new duration, overwriting any previous
value (last-write-wins); starting twice with the same `d` leaves the stored
duration equal to `d` with no accumulation, and `start` is total with no
error channel. -/
theorem start_last_write_wins (t : Timer) (d d₂ : Duration) :
    (t.start d).duration = d ∧
    ((t.start d).start d).duration = d ∧
    (t.start d).start d = t.start d ∧
    (t.start d).start d₂ = t.start d₂ :=
  ⟨rfl, rfl, rfl, rfl⟩

/-- C6: `Timer::new(delay)` takes ownership of the delay handle and returns a
timer whose duration is zero and whose `periodic` flag is false; `new` is a
total function with no failure mode. -/
theorem new_initial_state (dl : Delay) :
    (Timer.new dl).duration = Duration.from_secs 0 ∧
    (Timer.new dl).duration.secs = 0 ∧
    (Timer.new dl).duration.nanos = 0 ∧
    (Timer.new dl).periodic = false ∧
    (Timer.new dl).delay = dl :=
  ⟨rfl, rfl, rfl, rfl, rfl⟩

/-- C7: calling `wait()` on a freshly constructed timer, before any `start`,
requests a 0-microsecond delay and returns success. -/
theorem wait_before_start_is_noop (dl : Delay) :
    ((Timer.new dl).wait).1.delay.log = dl.log ++ [0] ∧
    ((Timer.new dl).wait).2 = Except.ok () := by
  refine ⟨?_, rfl⟩
  rw [show ((Timer.new dl).wait).1.delay.log =
        dl.log ++ [(Duration.from_secs 0).as_micros % 2 ^ 32] from rfl,
    show (Duration.from_secs 0).as_micros % 2 ^ 32 = 0 from by decide]

/-- C9: although `wait`'s return type `nb::Result<(), Void>` permits a
`WouldBlock` value, `wait` never returns `WouldBlock` — nor any other
`Err` — from any timer state: every call returns `Ok(())`. -/
theorem wait_never_would_block (t : Timer) :
    (t.wait).2 ≠ Except.error (NbError.wouldBlock) ∧
    (∀ e : NbError Void, (t.wait).2 ≠ Except.error e) ∧
    (t.wait).2 = Except.ok () := by
  have hok : (t.wait).2 = Except.ok () := rfl
  refine ⟨?_, ?_, hok⟩
  · rw [hok]
    intro h
    exact Except.noConfusion h
  · intro e
    rw [hok]
    intro h
    exact Except.noConfusion h

/-- C10: `wait()` leaves the stored duration and the `periodic` flag
unchanged; after `start(d)`, any number `n` of successive `wait()` calls
with no intervening `start` each request the same
`d.as_micros() % 2^32`-microsecond delay — the duration is not consumed. -/
theorem wait_preserves_duration (t : Timer) (d : Duration) (n : Nat) :
    (t.wait).1.duration = t.duration ∧
    (t.wait).1.periodic = t.periodic ∧
    ((t.start d).waitN n).duration = d ∧
    ((t.start d).waitN n).delay.log =
      t.delay.log ++ List.replicate n (d.as_micros % 2 ^ 32) := by
  refine ⟨rfl, rfl, ?_, ?_⟩
  · rw [Timer.waitN_duration]
    rfl
  · rw [Timer.waitN_log]
    rfl

/-- C8: for every driver result oracle (of any error type) and every
iteration count `n`, the trace of display operations after `n` iterations of
`main`'s loop is exactly `n` copies of
`print "hello world!"; delay 1000000; clear; delay 1000000`; the trace does
not depend on the results the display operations return (they are observed
and discarded, never propagated), and each further iteration strictly
extends the trace by the same four operations, so the loop never stops of
its own accord. -/
theorem main_loop_repeats_forever {E F : Type}
    (res : List LcdOp → Except E Unit) (res₂ : List LcdOp → Except F Unit)
    (n : Nat) :
    main_trace res n = List.flatten (List.replicate n main_loop_iteration) ∧
    main_trace res n = main_trace res₂ n ∧
    main_trace res (n + 1) = main_trace res n ++ main_loop_iteration := by
  refine ⟨main_trace_join res n, ?_, ?_⟩
  · rw [main_trace_join res n, main_trace_join res₂ n]
  · rw [main_trace_join res (n + 1), main_trace_join res n,
      List.replicate_succ', List.flatten_append]
    simp [main_loop_iteration]
